import Mathlib

/-!
# Shallow embedding of `sparse_model.py`

This file embeds the data model and operations of the sparse-transformer
implementation (`src/sparse_model.py`) and proves or refutes the frozen
claims about it.

Tensors are modelled as total functions from natural-number indices to
values; shapes are carried as explicit dimension parameters where an
operation depends on them (sums, softmax normalisation, broadcasting).
Floating-point values are modelled as real numbers, extended with a
distinguished negative-infinity point (`XF`) where the code can produce
the IEEE value `-inf` (`float("-inf")` in `compute_attention`).
-/

namespace SparseModel

/-- A float score value: either a finite real or literal negative infinity.
`float("-inf")` in `SparseMultiHeadAttentionBlock.compute_attention` is the
only way the code introduces a non-finite score, so positive infinity and
NaN need no representation here. -/
inductive XF where
  | fin (x : ℝ) : XF
  | negInf : XF

/-- `torch.finfo(torch.float32).min`, the most negative finite
single-precision value `-(2 - 2^-23) * 2^127 = -(2^128 - 2^104)`,
used as the fill constant in `MultiHeadAttentionBlock.attention`. -/
noncomputable def float32min : ℝ := -(2 ^ 128 - 2 ^ 104)

/-- `exp` extended to scores: `exp(-inf) = 0`, matching IEEE/torch
semantics inside `softmax`. -/
noncomputable def XF.toExp : XF → ℝ
  | .fin x => Real.exp x
  | .negInf => 0

/-- One row of `softmax(dim=-1)` over the first `T` entries.  For a row
whose exponentials all vanish (every entry `-inf`) torch produces NaN;
Lean's division by zero returns `0` there instead — no claim in this file
depends on that degenerate row. -/
noncomputable def softmaxRow (T : ℕ) (s : ℕ → XF) (k : ℕ) : ℝ :=
  (s k).toExp / ∑ l ∈ Finset.range T, (s l).toExp

/-- A 4-d boolean mask `(B, h, T, T)` as a function of
batch, head, query, key indices. -/
abbrev Mask4 := ℕ → ℕ → ℕ → ℕ → Bool

/-- A 3-d tensor `(B, T, D)` as a function of batch, position, feature. -/
abbrev T3 := ℕ → ℕ → ℕ → ℝ

/-- A 4-d tensor `(B, h, T, d_k)` as a function of indices. -/
abbrev T4 := ℕ → ℕ → ℕ → ℕ → ℝ

/-! ## Sparse mask construction

`build_sparse_mask` delegates to `create_sparse_mask` imported from
`utils.py`, which is not part of the sources; it is modelled from the
spec below. -/

/-- Modelled from the spec: `create_sparse_mask` lives in `utils.py`,
which is not under `src/`; only its call site
(`SparseMultiHeadAttentionBlock.build_sparse_mask`) is.  Per spec §4.3,
each query position may attend to (a) all key positions within the same
contiguous block of `block_size` positions, and (b) key positions at
fixed-stride offsets from the query position; when `causal = true` the
pattern is intersected with a lower-triangular allow mask, suppressing any
key position greater than the query position.  Entrywise value of the
`(1, 1, T, T)` allow matrix at `(q, k)`. -/
def create_sparse_mask (block_size stride : ℕ) (causal : Bool) (q k : ℕ) : Bool :=
  let sameBlock : Bool := q / block_size == k / block_size
  let strided : Bool := (max q k - min q k) % stride == 0
  let allow := sameBlock || strided
  if causal then allow && decide (k ≤ q) else allow

/-- `SparseMultiHeadAttentionBlock.build_sparse_mask`: the base
`(1, 1, T, T)` mask expanded (replicated) to `(B, h, T, T)`. -/
def build_sparse_mask (block_size stride : ℕ) (causal : Bool) : Mask4 :=
  fun _b _h q k => create_sparse_mask block_size stride causal q k

/-- An externally supplied mask, `(B, T, T)` after the `dim() == 3`
unsqueeze, or `(B, 1, T, T)` with its size-one head dimension dropped:
either way a function of batch, query, key. -/
abbrev ExtMask := ℕ → ℕ → ℕ → Bool

/-- `mask.expand(B, self.h, T, T)`: replication of the size-one head
dimension across all `h` heads, values unchanged. -/
def expandMask (m : ExtMask) : Mask4 :=
  fun b _h q k => m b q k

/-- The mask-combination step of `SparseMultiHeadAttentionBlock.forward`
(lines 145–152): with a non-null external mask, the structural sparse
mask is AND-ed with the head-expanded external mask; otherwise the sparse
mask alone is used. -/
def sparseAttnMask (sparse : Mask4) (mask : Option ExtMask) : Mask4 :=
  match mask with
  | some m => fun b h q k => sparse b h q k && expandMask m b h q k
  | none => sparse

/-! ## Attention kernels -/

/-- `(query @ key.transpose(-2, -1)) / math.sqrt(d_k)`: the raw scaled
dot-product scores of shape `(B, h, T, T)`. -/
noncomputable def rawScores (d_k : ℕ) (query key : T4) : ℕ → ℕ → ℕ → ℕ → ℝ :=
  fun b h i l => (∑ j ∈ Finset.range d_k, query b h i j * key b h l j) / Real.sqrt d_k

/-- The masking step of the dense `MultiHeadAttentionBlock.attention`
(line 79): `attention_scores.masked_fill_(mask == 0,
torch.finfo(attention_scores.dtype).min)` — positions where the mask is
false receive the dtype's most negative finite value. -/
noncomputable def denseMaskedScores (scores : ℕ → ℕ → ℕ → ℕ → ℝ) (mask : Option Mask4) :
    ℕ → ℕ → ℕ → ℕ → XF :=
  match mask with
  | some m => fun b h q k => if m b h q k then .fin (scores b h q k) else .fin float32min
  | none => fun b h q k => .fin (scores b h q k)

/-- The masking step of `SparseMultiHeadAttentionBlock.compute_attention`
(line 177): `scores.masked_fill(~mask, float("-inf"))` — positions where
the mask is false receive literal negative infinity. -/
noncomputable def sparseMaskedScores (scores : ℕ → ℕ → ℕ → ℕ → ℝ) (mask : Mask4) :
    ℕ → ℕ → ℕ → ℕ → XF :=
  fun b h q k => if mask b h q k then .fin (scores b h q k) else .negInf

/-- The dense attention kernel `MultiHeadAttentionBlock.attention`
(lines 71–86): scale, mask-fill with the finite minimum, softmax over the
key dimension, dropout, multiply by values.  The returned
`attention_scores` (kept by the source for visualisation) are not used by
`forward`, so only the value-weighted output is returned here. -/
noncomputable def attention (d_k T : ℕ) (query key value : T4) (mask : Option Mask4)
    (dropout : T4 → T4) : T4 :=
  let masked := denseMaskedScores (rawScores d_k query key) mask
  let weights := dropout (fun b h i k => softmaxRow T (masked b h i) k)
  fun b h i j => ∑ l ∈ Finset.range T, weights b h i l * value b h l j

/-- A weight matrix `(out_features, in_features)` of a linear layer. -/
abbrev Wmat := ℕ → ℕ → ℝ

/-- `nn.Linear(d_model, d_model, bias=False)` applied to a `(B, T, D)`
tensor: matrix product with the weight along the feature dimension. -/
noncomputable def linearNoBias (D : ℕ) (W : Wmat) (x : T3) : T3 :=
  fun b t d => ∑ e ∈ Finset.range D, W d e * x b t e

/-- `x.view(B, T, h, d_k).transpose(1, 2)`: split the feature dimension
into `h` heads of width `d_k`; element `(b, i, t, j)` of the result is
element `(b, t, i*d_k + j)` of the input. -/
def headSplit (d_k : ℕ) (x : T3) : T4 :=
  fun b i t j => x b t (i * d_k + j)

/-- `x.transpose(1, 2).contiguous().view(B, T, h*d_k)`: merge the heads
back; element `(b, t, c)` of the result is element
`(b, c / d_k, t, c % d_k)` of the input. -/
def headMerge (d_k : ℕ) (y : T4) : T3 :=
  fun b t c => y b (c / d_k) t (c % d_k)

/-- The dense `MultiHeadAttentionBlock.forward` (lines 88–110): project
q/k/v, split heads, run the attention kernel, merge heads, apply the
output projection. -/
noncomputable def mhaForward (D h T : ℕ) (wq wk wv wo : Wmat) (dropout : T4 → T4)
    (q k v : T3) (mask : Option Mask4) : T3 :=
  let d_k := D / h
  let query := headSplit d_k (linearNoBias D wq q)
  let key := headSplit d_k (linearNoBias D wk k)
  let value := headSplit d_k (linearNoBias D wv v)
  let x := attention d_k T query key value mask dropout
  linearNoBias D wo (headMerge d_k x)

/-! ## Sparse attention block -/

/-- `SparseMultiHeadAttentionBlock.compute_qkv` (lines 157–162): all
three projections are applied to the same input `x`, then head-split. -/
noncomputable def compute_qkv (D h : ℕ) (wq wk wv : Wmat) (x : T3) : T4 × T4 × T4 :=
  let d_k := D / h
  ( headSplit d_k (linearNoBias D wq x)
  , headSplit d_k (linearNoBias D wk x)
  , headSplit d_k (linearNoBias D wv x) )

/-- `SparseMultiHeadAttentionBlock.compute_attention` (lines 171–180):
scale, mask-fill with literal `-inf`, softmax over the key dimension,
dropout, multiply by values. -/
noncomputable def compute_attention (d_k T : ℕ) (dropout : T4 → T4)
    (q k v : T4) (mask : Mask4) : T4 :=
  let masked := sparseMaskedScores (rawScores d_k q k) mask
  let attn_weights := dropout (fun b h i l => softmaxRow T (masked b h i) l)
  fun b h i j => ∑ l ∈ Finset.range T, attn_weights b h i l * v b h l j

/-- `SparseMultiHeadAttentionBlock.output_projection` (lines 182–185):
merge heads, multiply by `w_o`. -/
noncomputable def output_projection (D d_k : ℕ) (wo : Wmat) (x : T4) : T3 :=
  linearNoBias D wo (headMerge d_k x)

/-- `SparseMultiHeadAttentionBlock.forward` (lines 141–154).  Note the
source immediately rebinds `q, k, v = self.compute_qkv(q)`, so the `k`
and `v` parameters are shadowed and never read. -/
noncomputable def sparseForward (D h T : ℕ) (block_size stride : ℕ) (causal : Bool)
    (wq wk wv wo : Wmat) (dropout : T4 → T4)
    (q k v : T3) (mask : Option ExtMask) : T3 :=
  let qkv := compute_qkv D h wq wk wv q
  let sparse_mask := build_sparse_mask block_size stride causal
  let attn_mask := sparseAttnMask sparse_mask mask
  let attn_out := compute_attention (D / h) T dropout qkv.1 qkv.2.1 qkv.2.2 attn_mask
  output_projection D (D / h) wo attn_out

/-! ## Construction-time checks

`__init__` methods and `build_sparse_transformer` are embedded as
`Except`-valued builders that reproduce every build-time exception the
construction can raise: the `assert d_model % h == 0` statements, the
`ZeroDivisionError` from `d_model // h` / `d_model % h` at `h = 0`, the
`ValueError` from `nn.Dropout` for rates outside `[0, 1]`, and the two
failure modes of the positional-encoding table (division by
`d_model = 0`, slice-assignment shape mismatch for odd `d_model`).
Embeddings, layer norms, linear layers and the Xavier initialisation
loop raise nothing for the natural-number dimensions modelled here.
`block_size` and `stride` are carried as integers so that non-positive
values can be supplied. -/

/-- The configuration recorded by
`SparseMultiHeadAttentionBlock.__init__`. -/
structure SparseMHACfg where
  d_model : ℕ
  h : ℕ
  d_k : ℕ
  block_size : ℤ
  stride : ℤ
  causal : Bool

/-- `nn.Dropout(p)` (created at lines 31, 69, 131, 212, 222): raises
`ValueError` unless `0 ≤ p ≤ 1`. -/
def dropoutInit (dropout : ℚ) : Except String Unit :=
  if 0 ≤ dropout ∧ dropout ≤ 1 then .ok ()
  else .error "ValueError: dropout probability has to be between 0 and 1"

/-- Sequencing of fallible construction statements: run the first,
abort on its exception, otherwise continue with the second. -/
def seqE {α : Type} (e1 : Except String Unit) (e2 : Except String α) :
    Except String α :=
  match e1 with
  | .error e => .error e
  | .ok _ => e2

/-- `PositionalEncoding.__init__` (lines 27–45): creates the dropout
module (line 31), then the table.  `math.log(1000.0) / d_model`
(line 38) raises `ZeroDivisionError` at `d_model = 0`, and the
slice-assignment `pe[:, 1::2] = cos(...)` (line 41) raises a shape
mismatch for every odd `d_model` (`d_model / 2` destination columns
against `(d_model + 1) / 2` cosine columns).  `seq_len` does not affect
construction success. -/
def positionalEncodingInit (d_model _seq_len : ℕ) (dropout : ℚ) :
    Except String Unit :=
  seqE (dropoutInit dropout)
    (if d_model = 0 then .error "ZeroDivisionError: float division by zero"
     else if d_model % 2 = 1 then
       .error "RuntimeError: shape mismatch in pe slice assignment"
     else .ok ())

/-- `SparseMultiHeadAttentionBlock.__init__` (lines 114–131):
`d_model // h` (line 119) raises `ZeroDivisionError` when `h = 0`; the
assert (line 125) then requires `d_model % h == 0`; the dropout module
(line 131) requires a rate in `[0, 1]`.  `block_size` and `stride` are
stored without any validation. -/
def sparseMHAInit (d_model h : ℕ) (dropout : ℚ) (block_size stride : ℤ)
    (causal : Bool) : Except String SparseMHACfg :=
  if h = 0 then .error "ZeroDivisionError: integer division or modulo by zero"
  else if d_model % h ≠ 0 then .error "d_model must be divisible by h"
  else
    seqE (dropoutInit dropout)
      (.ok ⟨d_model, h, d_model / h, block_size, stride, causal⟩)

/-- `MultiHeadAttentionBlock.__init__` (lines 56–69): the assert's
`d_model % h` (line 62) raises `ZeroDivisionError` when `h = 0`,
otherwise the assert requires divisibility; the dropout module
(line 69) requires a rate in `[0, 1]`. -/
def mhaInit (d_model h : ℕ) (dropout : ℚ) : Except String Unit :=
  if h = 0 then .error "ZeroDivisionError: integer division or modulo by zero"
  else if d_model % h ≠ 0 then .error "d_model is not divisible by h"
  else dropoutInit dropout

/-- `FeedForwardBlock.__init__` (lines 209–213): only its dropout
module (line 212) can raise for ℕ-sized linear layers. -/
def feedForwardInit (dropout : ℚ) : Except String Unit :=
  dropoutInit dropout

/-- `ResidualConnection.__init__` (lines 220–223): only its dropout
module (line 222) can raise. -/
def residualConnectionInit (dropout : ℚ) : Except String Unit :=
  dropoutInit dropout

/-- One iteration of the encoder-block construction loop (lines
347–351): a non-causal sparse attention block, a feed-forward block,
then the `EncoderBlock` itself with its two residual connections. -/
def encoderBlockIter (d_model h : ℕ) (dropout : ℚ) (block_size stride : ℤ) :
    Except String SparseMHACfg :=
  match sparseMHAInit d_model h dropout block_size stride false with
  | .error e => .error e
  | .ok c =>
    seqE (feedForwardInit dropout)
      (seqE (residualConnectionInit dropout)
        (seqE (residualConnectionInit dropout) (.ok c)))

/-- One iteration of the decoder-block construction loop (lines
356–361): a causal sparse self-attention block, a dense cross-attention
block, a feed-forward block, then the `DecoderBlock` itself with its
three residual connections. -/
def decoderBlockIter (d_model h : ℕ) (dropout : ℚ) (block_size stride : ℤ) :
    Except String SparseMHACfg :=
  match sparseMHAInit d_model h dropout block_size stride true with
  | .error e => .error e
  | .ok c =>
    seqE (mhaInit d_model h dropout)
      (seqE (feedForwardInit dropout)
        (seqE (residualConnectionInit dropout)
          (seqE (residualConnectionInit dropout)
            (seqE (residualConnectionInit dropout) (.ok c)))))

/-- The encoder-block loop of `build_sparse_transformer` (lines
346–351): `n` iterations, aborting on the first exception. -/
def buildEncoderBlocks (n d_model h : ℕ) (dropout : ℚ) (block_size stride : ℤ) :
    Except String (List SparseMHACfg) :=
  match n with
  | 0 => .ok []
  | n + 1 =>
    match encoderBlockIter d_model h dropout block_size stride with
    | .error e => .error e
    | .ok c =>
      (buildEncoderBlocks n d_model h dropout block_size stride).map (c :: ·)

/-- The decoder-block loop of `build_sparse_transformer` (lines
355–361). -/
def buildDecoderBlocks (n d_model h : ℕ) (dropout : ℚ) (block_size stride : ℤ) :
    Except String (List SparseMHACfg) :=
  match n with
  | 0 => .ok []
  | n + 1 =>
    match decoderBlockIter d_model h dropout block_size stride with
    | .error e => .error e
    | .ok c =>
      (buildDecoderBlocks n d_model h dropout block_size stride).map (c :: ·)

/-- The fallible part of `build_sparse_transformer` (lines 336–378), in
source order: embeddings (no failure for ℕ sizes), the two positional
encodings (lines 342–343), the encoder-block loop, the decoder-block
loop.  The encoder/decoder wrappers, projection layer and Xavier
initialisation raise nothing further once these have succeeded.  No
step anywhere inspects `block_size` or `stride`. -/
def build_sparse_transformer (_src_vocab_size _tgt_vocab_size src_seq_len
    tgt_seq_len d_model N h : ℕ) (dropout : ℚ) (_d_ff : ℕ)
    (block_size stride : ℤ) :
    Except String (List SparseMHACfg × List SparseMHACfg) :=
  seqE (positionalEncodingInit d_model src_seq_len dropout)
    (seqE (positionalEncodingInit d_model tgt_seq_len dropout)
      (match buildEncoderBlocks N d_model h dropout block_size stride with
       | .error e => .error e
       | .ok enc =>
         match buildDecoderBlocks N d_model h dropout block_size stride with
         | .error e => .error e
         | .ok dec => .ok (enc, dec)))

/-! ## Layer normalization, residual wrapper, decoder stack -/

/-- `x.mean(dim=-1, keepdim=True)` over a feature row of width `D`. -/
noncomputable def rowMean (D : ℕ) (x : ℕ → ℝ) : ℝ :=
  (∑ j ∈ Finset.range D, x j) / D

/-- `x.var(dim=-1, keepdim=True, unbiased=False)`: population variance
over a feature row of width `D`. -/
noncomputable def rowVar (D : ℕ) (x : ℕ → ℝ) : ℝ :=
  (∑ j ∈ Finset.range D, (x j - rowMean D x) ^ 2) / D

/-- `LayerNormalization.forward` (lines 199–205) on one feature row:
`alpha * (x - mean) / sqrt(var + eps) + bias`. -/
noncomputable def layerNorm (D : ℕ) (eps : ℝ) (alpha bias : ℕ → ℝ) (x : ℕ → ℝ) :
    ℕ → ℝ :=
  fun d => alpha d * ((x d - rowMean D x) / Real.sqrt (rowVar D x + eps)) + bias d

/-- `LayerNormalization.forward` applied to a `(B, T, D)` tensor:
normalization is along the last dimension, independently per row. -/
noncomputable def layerNorm3 (D : ℕ) (eps : ℝ) (alpha bias : ℕ → ℝ) (x : T3) : T3 :=
  fun b t => layerNorm D eps alpha bias (x b t)

/-- Parameters owned by one `ResidualConnection`: its layer norm's
width/epsilon/scale/shift and its dropout module (modelled as a function,
identity in eval mode). -/
structure RCParams where
  D : ℕ
  eps : ℝ
  alpha : ℕ → ℝ
  bias : ℕ → ℝ
  drop : T3 → T3

/-- `ResidualConnection.forward` (line 226):
`x + self.dropout(sublayer(self.norm(x)))`. -/
noncomputable def residualForward (p : RCParams) (x : T3) (sublayer : T3 → T3) : T3 :=
  fun b t d =>
    x b t d + p.drop (sublayer (layerNorm3 p.D p.eps p.alpha p.bias x)) b t d

/-- `DecoderBlock.forward` (lines 262–267): three residual wrappers in
order — sparse causal self-attention with `tgt_mask`, dense
cross-attention against the encoder output with `src_mask`,
feed-forward.  The sublayer modules injected at construction are
function parameters; mask types are abstract since the block only
forwards them. -/
noncomputable def decoderBlockForward {σ τ : Type} (p0 p1 p2 : RCParams)
    (self_attention_block : T3 → T3 → T3 → τ → T3)
    (cross_attention_block : T3 → T3 → T3 → σ → T3)
    (feed_forward_block : T3 → T3)
    (x encoder_output : T3) (src_mask : σ) (tgt_mask : τ) : T3 :=
  let x1 := residualForward p0 x (fun y => self_attention_block y y y tgt_mask)
  let x2 := residualForward p1 x1
    (fun y => cross_attention_block y encoder_output encoder_output src_mask)
  residualForward p2 x2 feed_forward_block

/-- `Decoder.forward` (lines 275–278): fold the layers over the input in
order, then apply the decoder's own final layer norm once. -/
noncomputable def decoderForward {σ τ : Type}
    (layers : List (T3 → T3 → σ → τ → T3))
    (D : ℕ) (eps : ℝ) (alpha bias : ℕ → ℝ)
    (x encoder_output : T3) (src_mask : σ) (tgt_mask : τ) : T3 :=
  layerNorm3 D eps alpha bias
    (layers.foldl (fun acc layer => layer acc encoder_output src_mask tgt_mask) x)

/-- Written from the spec's words for the stack shape (§4.7): "Stack = N
blocks applied sequentially"; head-first sequential application of the
blocks. -/
def applyLayersSeq {σ τ : Type} (layers : List (T3 → T3 → σ → τ → T3))
    (x encoder_output : T3) (src_mask : σ) (tgt_mask : τ) : T3 :=
  match layers with
  | [] => x
  | layer :: rest =>
    applyLayersSeq rest (layer x encoder_output src_mask tgt_mask)
      encoder_output src_mask tgt_mask

/-! ## Positional encoding -/

/-- `div_term` (line 38): entry `i` of
`exp(arange(0, d_model, 2) * -(log(1000) / d_model))`, i.e.
`exp(2i * -(log 1000 / d_model))`.  The base is 1000, not the
conventional 10000. -/
noncomputable def div_term (d_model i : ℕ) : ℝ :=
  Real.exp ((2 * i : ℝ) * (-(Real.log 1000 / d_model)))

/-- The positional-encoding table `pe` (lines 34–41): even feature
columns carry `sin(pos * div_term)`, odd columns `cos(pos * div_term)`
with the same divisor (column `2i` and `2i+1` both use `div_term i`). -/
noncomputable def pe (d_model : ℕ) (pos j : ℕ) : ℝ :=
  if j % 2 = 0 then Real.sin (pos * div_term d_model (j / 2))
  else Real.cos (pos * div_term d_model (j / 2))

/-- PyTorch broadcasting of two sizes along one dimension: equal sizes,
or a size-one side stretched to the other. -/
def broadcastDim (a b : ℕ) : Option ℕ :=
  if a = b then some a else if a = 1 then some b else if b = 1 then some a else none

/-- `PositionalEncoding.forward` (lines 47–49):
`x + self.pe[:, :x.shape[1], :]`.  The slice keeps
`min T seq_len` rows; the elementwise add then follows PyTorch
broadcasting along the sequence dimension — a `RuntimeError` when the
two sizes neither match nor include a 1.  `T` is `x.shape[1]`. -/
noncomputable def peForward (d_model seq_len : ℕ) (drop : T3 → T3) (T : ℕ) (x : T3) :
    Except String T3 :=
  match broadcastDim T (min T seq_len) with
  | none => .error "RuntimeError: size mismatch along the sequence dimension"
  | some _ =>
    .ok (drop (fun b t d =>
      x b t d + pe d_model (if min T seq_len ≤ 1 then 0 else t) d))

/-! ## Concrete sample inputs for witnesses and counterexamples -/

/-- Outcome test of an `Except`-valued construction step. -/
def exceptOk {α : Type} : Except String α → Bool
  | .ok _ => true
  | .error _ => false

/-- A concrete all-zero score tensor. -/
noncomputable def exScores : ℕ → ℕ → ℕ → ℕ → ℝ := fun _ _ _ _ => 0

/-- A concrete mask allowing only key position 0. -/
def exMask4 : Mask4 := fun _ _ _ k => k == 0

/-- A concrete all-zero input tensor. -/
noncomputable def exInput : T3 := fun _ _ _ => 0

/-! ## Claims -/

/-- C1, counterexample: the claim "every masked score is replaced by the
dtype's most negative finite value, never by literal negative infinity"
fails on the sparse variant: at the concrete masked position
`(0, 0, 0, 1)` the sparse fill writes literal negative infinity, which is
not the finite minimum. -/
theorem C1_counterexample :
    sparseMaskedScores exScores exMask4 0 0 0 1 = XF.negInf ∧
      XF.negInf ≠ XF.fin float32min := by
  refine ⟨rfl, fun h => XF.noConfusion h⟩

/-- C1, amended: with a non-null mask, the dense attention kernel
replaces every score at a mask-false position by the dtype's most
negative finite value, while the sparse attention kernel replaces it by
literal negative infinity — in both cases before the softmax over the
key dimension. -/
theorem C1_masked_fill_values (scores : ℕ → ℕ → ℕ → ℕ → ℝ) (m : Mask4) (b h q k : ℕ)
    (hm : m b h q k = false) :
    denseMaskedScores scores (some m) b h q k = XF.fin float32min ∧
      sparseMaskedScores scores m b h q k = XF.negInf := by
  refine ⟨?_, ?_⟩ <;> simp [denseMaskedScores, sparseMaskedScores, hm]

/-- C1, witness: the amended fill-value facts at the concrete masked
position `(0, 0, 0, 1)`. -/
theorem C1_masked_fill_values_witness :
    exMask4 0 0 0 1 = false ∧
      (denseMaskedScores exScores (some exMask4) 0 0 0 1 = XF.fin float32min ∧
        sparseMaskedScores exScores exMask4 0 0 0 1 = XF.negInf) :=
  ⟨rfl, C1_masked_fill_values exScores exMask4 0 0 0 1 rfl⟩

/-- C2: with `causal = true`, the sparse allow-mask built by
`build_sparse_mask` is false at every pair `q, k < T` with `k > q` — no
attention to future positions, for every block size and stride. -/
theorem C2_causal_no_future (block_size stride : ℕ) (b h T q k : ℕ)
    (hq : q < T) (hk : k < T) (hfuture : q < k) :
    build_sparse_mask block_size stride true b h q k = false := by
  have hd : decide (k ≤ q) = false := by simp; omega
  simp [build_sparse_mask, create_sparse_mask, hd]

/-- C2, witness: the causal mask at `T = 8`, `block_size = 2`,
`stride = 2` blocks the future position `k = 3` for query `q = 0`. -/
theorem C2_causal_no_future_witness :
    0 < 8 ∧ 3 < 8 ∧ 0 < 3 ∧ build_sparse_mask 2 2 true 0 0 0 3 = false :=
  ⟨by decide, by decide, by decide,
    C2_causal_no_future 2 2 0 0 8 0 3 (by decide) (by decide) (by decide)⟩

/-- C3: in `SparseMultiHeadAttentionBlock.forward`, with a non-null
external mask the mask used for the scores is the pointwise AND of the
structural sparse mask and the external mask replicated across the head
dimension (the head index is ignored by the expanded external mask);
with a null external mask the structural sparse mask alone is used. -/
theorem C3_mask_combination (sparse : Mask4) (m : ExtMask) (b h q k : ℕ) :
    sparseAttnMask sparse (some m) b h q k = (sparse b h q k && m b q k) ∧
      expandMask m b h q k = m b q k ∧
      sparseAttnMask sparse none = sparse :=
  ⟨rfl, rfl, rfl⟩

/-- C4, counterexample: the claim "construction fails at build time when
block_size ≤ 0 or stride ≤ 0" is false: building the full transformer
with `block_size = 0` and `stride = -1` succeeds. -/
theorem C4_counterexample :
    exceptOk (build_sparse_transformer 100 100 16 16 64 2 4 0 256 0 (-1)) =
      true := by
  rfl

/-- Helper: a dropout rate in `[0, 1]` passes the `nn.Dropout`
validation. -/
theorem dropoutInit_ok (dropout : ℚ) (hdrop : 0 ≤ dropout ∧ dropout ≤ 1) :
    dropoutInit dropout = .ok () := by
  unfold dropoutInit
  rw [if_pos hdrop]

/-- Helper: positional-encoding construction succeeds for an even,
non-zero `d_model` and a valid dropout rate. -/
theorem positionalEncodingInit_ok (d_model sl : ℕ) (dropout : ℚ)
    (hnz : d_model ≠ 0) (heven : d_model % 2 = 0)
    (hdrop : 0 ≤ dropout ∧ dropout ≤ 1) :
    positionalEncodingInit d_model sl dropout = .ok () := by
  unfold positionalEncodingInit
  rw [dropoutInit_ok dropout hdrop, if_neg hnz, if_neg (by omega)]
  rfl

/-- Helper: the sparse attention block's constructor succeeds under the
checks it actually performs — `h ≠ 0`, divisibility, dropout rate —
whatever `block_size` and `stride` are. -/
theorem sparseMHAInit_ok (d_model h : ℕ) (dropout : ℚ) (bs st : ℤ) (c : Bool)
    (hh : h ≠ 0) (hdiv : d_model % h = 0)
    (hdrop : 0 ≤ dropout ∧ dropout ≤ 1) :
    sparseMHAInit d_model h dropout bs st c =
      .ok ⟨d_model, h, d_model / h, bs, st, c⟩ := by
  unfold sparseMHAInit
  rw [if_neg hh, if_neg (fun hne => hne hdiv), dropoutInit_ok dropout hdrop]
  rfl

/-- Helper: the dense attention block's constructor succeeds under the
same checks. -/
theorem mhaInit_ok (d_model h : ℕ) (dropout : ℚ)
    (hh : h ≠ 0) (hdiv : d_model % h = 0)
    (hdrop : 0 ≤ dropout ∧ dropout ≤ 1) :
    mhaInit d_model h dropout = .ok () := by
  unfold mhaInit
  rw [if_neg hh, if_neg (fun hne => hne hdiv), dropoutInit_ok dropout hdrop]

/-- Helper: one encoder-block construction iteration succeeds under the
real checks, for every `block_size` and `stride`. -/
theorem encoderBlockIter_ok (d_model h : ℕ) (dropout : ℚ) (bs st : ℤ)
    (hh : h ≠ 0) (hdiv : d_model % h = 0)
    (hdrop : 0 ≤ dropout ∧ dropout ≤ 1) :
    encoderBlockIter d_model h dropout bs st =
      .ok ⟨d_model, h, d_model / h, bs, st, false⟩ := by
  unfold encoderBlockIter feedForwardInit residualConnectionInit
  rw [sparseMHAInit_ok d_model h dropout bs st false hh hdiv hdrop,
    dropoutInit_ok dropout hdrop]
  rfl

/-- Helper: one decoder-block construction iteration succeeds under the
real checks, for every `block_size` and `stride`. -/
theorem decoderBlockIter_ok (d_model h : ℕ) (dropout : ℚ) (bs st : ℤ)
    (hh : h ≠ 0) (hdiv : d_model % h = 0)
    (hdrop : 0 ≤ dropout ∧ dropout ≤ 1) :
    decoderBlockIter d_model h dropout bs st =
      .ok ⟨d_model, h, d_model / h, bs, st, true⟩ := by
  unfold decoderBlockIter feedForwardInit residualConnectionInit
  rw [sparseMHAInit_ok d_model h dropout bs st true hh hdiv hdrop,
    mhaInit_ok d_model h dropout hh hdiv hdrop, dropoutInit_ok dropout hdrop]
  rfl

/-- Helper: the encoder-block loop never fails under the real checks. -/
theorem buildEncoderBlocks_ok (n d_model h : ℕ) (dropout : ℚ) (bs st : ℤ)
    (hh : h ≠ 0) (hdiv : d_model % h = 0)
    (hdrop : 0 ≤ dropout ∧ dropout ≤ 1) :
    ∃ l, buildEncoderBlocks n d_model h dropout bs st = .ok l := by
  induction n with
  | zero => exact ⟨[], rfl⟩
  | succ n ih =>
    obtain ⟨l, hl⟩ := ih
    refine ⟨⟨d_model, h, d_model / h, bs, st, false⟩ :: l, ?_⟩
    unfold buildEncoderBlocks
    rw [encoderBlockIter_ok d_model h dropout bs st hh hdiv hdrop, hl]
    rfl

/-- Helper: the decoder-block loop never fails under the real checks. -/
theorem buildDecoderBlocks_ok (n d_model h : ℕ) (dropout : ℚ) (bs st : ℤ)
    (hh : h ≠ 0) (hdiv : d_model % h = 0)
    (hdrop : 0 ≤ dropout ∧ dropout ≤ 1) :
    ∃ l, buildDecoderBlocks n d_model h dropout bs st = .ok l := by
  induction n with
  | zero => exact ⟨[], rfl⟩
  | succ n ih =>
    obtain ⟨l, hl⟩ := ih
    refine ⟨⟨d_model, h, d_model / h, bs, st, true⟩ :: l, ?_⟩
    unfold buildDecoderBlocks
    rw [decoderBlockIter_ok d_model h dropout bs st hh hdiv hdrop, hl]
    rfl

/-- C4, amended: construction never validates `block_size` or `stride`.
The build-time checks that do exist are the dropout rate lying in
`[0, 1]`, `d_model` even and non-zero (positional-encoding table
construction), `h` non-zero, and `d_model % h = 0`; whenever all of
those pass, the build and the individual sparse attention block's
constructor succeed for every `block_size` and `stride`, non-positive
values included. -/
theorem C4_no_size_validation (sv tv sl tl d_model N h : ℕ) (dropout : ℚ)
    (d_ff : ℕ) (block_size stride : ℤ)
    (hdrop : 0 ≤ dropout ∧ dropout ≤ 1) (heven : d_model % 2 = 0)
    (hnz : d_model ≠ 0) (hh : h ≠ 0) (hdiv : d_model % h = 0) :
    exceptOk (build_sparse_transformer sv tv sl tl d_model N h dropout d_ff
        block_size stride) = true ∧
      exceptOk (sparseMHAInit d_model h dropout block_size stride true) = true := by
  obtain ⟨l1, hl1⟩ :=
    buildEncoderBlocks_ok N d_model h dropout block_size stride hh hdiv hdrop
  obtain ⟨l2, hl2⟩ :=
    buildDecoderBlocks_ok N d_model h dropout block_size stride hh hdiv hdrop
  refine ⟨?_, ?_⟩
  · unfold build_sparse_transformer
    rw [positionalEncodingInit_ok d_model sl dropout hnz heven hdrop,
      positionalEncodingInit_ok d_model tl dropout hnz heven hdrop, hl1, hl2]
    rfl
  · rw [sparseMHAInit_ok d_model h dropout block_size stride true hh hdiv hdrop]
    rfl

/-- C4, witness: the amended statement at `d_model = 64`, `h = 4`,
`N = 2`, `dropout = 0`, `block_size = -1`, `stride = 0`. -/
theorem C4_no_size_validation_witness :
    (0 ≤ (0 : ℚ) ∧ (0 : ℚ) ≤ 1) ∧ 64 % 2 = 0 ∧ (64 : ℕ) ≠ 0 ∧
      (4 : ℕ) ≠ 0 ∧ 64 % 4 = 0 ∧
      (exceptOk (build_sparse_transformer 100 100 16 16 64 2 4 0 256
          (-1) 0) = true ∧
        exceptOk (sparseMHAInit 64 4 0 (-1) 0 true) = true) :=
  ⟨⟨by norm_num, by norm_num⟩, by decide, by decide, by decide, by decide,
    C4_no_size_validation 100 100 16 16 64 2 4 0 256 (-1) 0
      ⟨by norm_num, by norm_num⟩ (by decide) (by decide) (by decide) (by decide)⟩

/-- C5: the residual wrapper returns exactly
`x + dropout(sublayer(norm(x)))`: the layer norm is applied to the input
before the sublayer (second conjunct unfolds it to the pre-norm formula
on the original input), and the dropped-out sublayer output is added to
the original un-normalized input. -/
theorem C5_residual_prenorm (p : RCParams) (x : T3) (sublayer : T3 → T3)
    (b t d : ℕ) :
    residualForward p x sublayer b t d =
        x b t d + p.drop (sublayer (layerNorm3 p.D p.eps p.alpha p.bias x)) b t d ∧
      layerNorm3 p.D p.eps p.alpha p.bias x b t d =
        p.alpha d * ((x b t d - rowMean p.D (x b t)) /
          Real.sqrt (rowVar p.D (x b t) + p.eps)) + p.bias d :=
  ⟨rfl, rfl⟩

/-- C6: the positional-encoding table satisfies
`pe[pos][2i] = sin(pos / 1000^(2i/D))` and
`pe[pos][2i+1] = cos(pos / 1000^(2i/D))` — base 1000, not 10000, in the
angle divisor. -/
theorem C6_pe_values (d_model seq_len pos i : ℕ)
    (hpos : pos < seq_len) (hi : 2 * i + 1 < d_model) :
    pe d_model pos (2 * i) =
        Real.sin ((pos : ℝ) / (1000 : ℝ) ^ ((2 * i : ℝ) / (d_model : ℝ))) ∧
      pe d_model pos (2 * i + 1) =
        Real.cos ((pos : ℝ) / (1000 : ℝ) ^ ((2 * i : ℝ) / (d_model : ℝ))) := by
  have key : (pos : ℝ) * div_term d_model i =
      (pos : ℝ) / (1000 : ℝ) ^ ((2 * i : ℝ) / (d_model : ℝ)) := by
    rw [div_term, Real.rpow_def_of_pos (by norm_num : (0 : ℝ) < 1000)]
    have harg : (2 * (i : ℝ)) * (-(Real.log 1000 / (d_model : ℝ))) =
        -(Real.log 1000 * ((2 * i : ℝ) / (d_model : ℝ))) := by ring
    rw [harg, Real.exp_neg]
    ring
  have h0 : 2 * i % 2 = 0 := by omega
  have h1 : 2 * i / 2 = i := by omega
  have h2 : (2 * i + 1) % 2 = 1 := by omega
  have h3 : (2 * i + 1) / 2 = i := by omega
  refine ⟨?_, ?_⟩
  · simp only [pe, h0, h1, if_pos]
    rw [key]
  · simp only [pe, h2, h3, one_ne_zero, if_false]
    rw [key]

/-- C6, witness: the table values at `pos = 1`, `i = 0`, `D = 2`,
`L_max = 4`. -/
theorem C6_pe_values_witness :
    1 < 4 ∧ 2 * 0 + 1 < 2 ∧
      (pe 2 1 (2 * 0) =
          Real.sin ((1 : ℝ) / (1000 : ℝ) ^ ((2 * 0 : ℝ) / (2 : ℝ))) ∧
        pe 2 1 (2 * 0 + 1) =
          Real.cos ((1 : ℝ) / (1000 : ℝ) ^ ((2 * 0 : ℝ) / (2 : ℝ)))) :=
  ⟨by decide, by decide, by exact_mod_cast C6_pe_values 2 4 1 0 (by decide) (by decide)⟩

/-- C7, counterexample: the claim "forward fails for every T greater than
the precomputed capacity" is false: with `L_max = 1` and `T = 2` the
sliced one-row table broadcasts along the sequence dimension and the call
succeeds. -/
theorem C7_counterexample :
    exceptOk (peForward 4 1 id 2 exInput) = true := by
  rfl

/-- C7, amended: for `T` exceeding the capacity, the
positional-encoding forward fails whenever `L_max ≥ 2` (the `L_max`
sliced rows cannot broadcast against `T`); with `L_max = 1` the original
claim is false — the one-row slice broadcasts across all `T` positions
and the call silently succeeds instead of raising. -/
theorem C7_overflow_fails (d_model seq_len : ℕ) (drop : T3 → T3) (T : ℕ)
    (x : T3) (hT : seq_len < T) :
    (2 ≤ seq_len → exceptOk (peForward d_model seq_len drop T x) = false) ∧
      (seq_len = 1 → exceptOk (peForward d_model seq_len drop T x) = true) := by
  refine ⟨fun h2 => ?_, fun h1 => ?_⟩
  · have hS : min T seq_len = seq_len := by omega
    have hb : broadcastDim T (min T seq_len) = none := by
      rw [hS]
      unfold broadcastDim
      rw [if_neg (by omega), if_neg (by omega), if_neg (by omega)]
    unfold peForward
    rw [hb]
    rfl
  · subst h1
    have hS : min T 1 = 1 := by omega
    have hb : broadcastDim T (min T 1) = some T := by
      rw [hS]
      unfold broadcastDim
      rw [if_neg (by omega), if_neg (by omega), if_pos rfl]
    unfold peForward
    rw [hb]
    rfl

/-- C7, witness: failure at `L_max = 2 < T = 3`, and silent success at
`L_max = 1 < T = 4`. -/
theorem C7_overflow_fails_witness :
    (2 < 3 ∧ 2 ≤ 2 ∧ exceptOk (peForward 4 2 id 3 exInput) = false) ∧
      (1 < 4 ∧ exceptOk (peForward 4 1 id 4 exInput) = true) :=
  ⟨⟨by decide, by decide,
      (C7_overflow_fails 4 2 id 3 exInput (by decide)).1 (by decide)⟩,
    ⟨by decide, (C7_overflow_fails 4 1 id 4 exInput (by decide)).2 rfl⟩⟩

/-- C8: a decoder block is exactly the three residual wrappers applied
strictly in the order sparse causal self-attention (with the target
mask), dense cross-attention against the encoder output (with the source
mask), feed-forward; and the decoder stack is the blocks applied
sequentially followed by a single final layer norm after the last
block. -/
theorem C8_decoder_structure {σ τ : Type} (p0 p1 p2 : RCParams)
    (sa : T3 → T3 → T3 → τ → T3) (ca : T3 → T3 → T3 → σ → T3) (ff : T3 → T3)
    (layers : List (T3 → T3 → σ → τ → T3)) (D : ℕ) (eps : ℝ) (alpha bias : ℕ → ℝ)
    (x enc : T3) (sm : σ) (tm : τ) :
    decoderBlockForward p0 p1 p2 sa ca ff x enc sm tm =
        residualForward p2
          (residualForward p1
            (residualForward p0 x (fun y => sa y y y tm))
            (fun y => ca y enc enc sm))
          ff ∧
      decoderForward layers D eps alpha bias x enc sm tm =
        layerNorm3 D eps alpha bias (applyLayersSeq layers x enc sm tm) := by
  refine ⟨rfl, ?_⟩
  unfold decoderForward
  induction layers generalizing x with
  | nil => rfl
  | cons l ls ih => simpa [applyLayersSeq] using ih (l x enc sm tm)

/-- C9: head-split followed by head-merge is the identity on every entry
of a `(B, T, D)` tensor when `D % H = 0` — a pure permutation with no
data loss. -/
theorem C9_split_merge_roundtrip (D H : ℕ) (hdiv : D % H = 0) (x : T3)
    (b t c : ℕ) :
    headMerge (D / H) (headSplit (D / H) x) b t c = x b t c := by
  unfold headMerge headSplit
  congr 1
  rw [mul_comm]
  exact Nat.div_add_mod c (D / H)

/-- C9, witness: the round trip at `D = 4`, `H = 2`, entry
`(0, 0, 3)`. -/
theorem C9_split_merge_roundtrip_witness :
    4 % 2 = 0 ∧ headMerge (4 / 2) (headSplit (4 / 2) exInput) 0 0 3 = exInput 0 0 3 :=
  ⟨by decide, C9_split_merge_roundtrip 4 2 (by decide) exInput 0 0 3⟩

/-- C10: `SparseMultiHeadAttentionBlock.forward` ignores its `k` and `v`
arguments entirely — the output for identical `q` and mask is identical
whatever `k` and `v` are, since `compute_qkv` derives keys and values
from `q` alone. -/
theorem C10_kv_arguments_ignored (D h T block_size stride : ℕ) (causal : Bool)
    (wq wk wv wo : Wmat) (dropout : T4 → T4) (q k v k' v' : T3)
    (mask : Option ExtMask) :
    sparseForward D h T block_size stride causal wq wk wv wo dropout q k v mask =
      sparseForward D h T block_size stride causal wq wk wv wo dropout q k' v' mask :=
  rfl

end SparseModel
